import Mathlib

/-!
Verification of the guest kernel-call dispatch gate of the Xime service
family (`XimeApp`, service id 0xF5), embedded shallowly from
`src/xenia/kernel/xam/apps/xime_app.cc`.

The dispatch function is modelled as a pure function from the service
object, the guest memory map and the call arguments to an outcome record
holding the returned result code, the resulting guest memory, and a trace
of the observable effects (address translation, log writes, and any
guest/host memory accesses, of which the gate performs none).
-/

namespace Xenia

/-- The generic success sentinel `X_E_SUCCESS` (value 0).
Modelled from the spec: the result-code header is not under `src/`;
the spec names `GenericSuccess` as `X_E_SUCCESS`, the all-zero code. -/
def X_E_SUCCESS : Nat := 0

/-- The generic failure sentinel `X_STATUS_UNSUCCESSFUL` (0xC0000001).
Modelled from the spec: the result-code header is not under `src/`;
the spec names `GenericUnsuccessful` as `X_STATUS_UNSUCCESSFUL`, a code
whose severity bits mark failure. -/
def X_STATUS_UNSUCCESSFUL : Nat := 0xC0000001

/-- The severity bits of a 32-bit result code: its top two bits. -/
def severityBits (code : Nat) : Nat := code % 2 ^ 32 / 2 ^ 30

/-- Modelled from the spec: the Result Code Taxonomy's success/failure
predicate is a pure function of the severity bits; codes with the high
severity bit set (severity 2 or 3) are failures. -/
def isFailure (code : Nat) : Bool := decide (2 ≤ severityBits code)

/-- The guest memory map supplied by the host process: a partial map from
guest virtual addresses to host pointers (represented as naturals). -/
structure MemoryMap where
  mapped : Nat → Option Nat

/-- Modelled from the spec: the Address Translator
`translate(addr: u32) -> hostPointer | null`; `addr == 0` always yields
`null` without consulting the memory map, any other address is resolved
against the guest's mapped address space, yielding `null` when unmapped.
The translator itself (`Memory::TranslateVirtual`) is not under `src/`;
only its call site in the dispatch gate is. -/
def MemoryMap.TranslateVirtual (mem : MemoryMap) (addr : Nat) : Option Nat :=
  if addr = 0 then none else mem.mapped addr

/-- Log severities used by the gate: `XELOGD` writes at debug severity,
`XELOGE` at error severity. -/
inductive Severity where
  | debug
  | error
  deriving DecidableEq, Repr

/-- The identity of each log message emitted by the Xime dispatch gate,
one per `XELOGD`/`XELOGE` call site in the source. -/
inductive LogText where
  | ximeInit
  | ximeUninit
  | ximeSetProperty
  | ximeSetCharacter
  | ximeGetString
  | unimplementedXimeMessage
  deriving DecidableEq, Repr

/-- Observable effects of a dispatch call: address translation, a log
write carrying its severity, message identity and numeric arguments, and
the guest/host memory accesses a dispatch could in principle perform
(the gate performs none; the constructors exist so their absence is a
statable property). -/
inductive Event where
  | translate (addr : Nat)
  | log (sev : Severity) (text : LogText) (args : List Nat)
  | readGuest (addr : Nat)
  | writeGuest (addr val : Nat)
  | derefHost (p : Nat)
  deriving DecidableEq, Repr

/-- The `XimeApp` service object: the borrowed emulation memory map and
the service id assigned at construction. -/
structure XimeApp where
  memory_ : MemoryMap
  app_id : Nat

/-- The `XimeApp` constructor: `XimeApp::XimeApp(KernelState* kernel_state)
: App(kernel_state, 0xF5)` — the service id is fixed to 0xF5. -/
def XimeApp.make (mem : MemoryMap) : XimeApp := ⟨mem, 0xF5⟩

/-- The outcome of one dispatch call: the returned result code, the guest
memory after the call, and the trace of effects in program order. -/
structure DispatchOutcome where
  result : Nat
  memory : MemoryMap
  trace : List Event

/-- Shallow embedding of `XimeApp::DispatchMessageSync(message, buffer_ptr,
buffer_length)`: translate `buffer_ptr` once, then switch on `message`;
each known opcode logs at debug severity and returns `X_E_SUCCESS`; an
unknown opcode logs at error severity with the app id, the message and
both raw arguments, and returns `X_STATUS_UNSUCCESSFUL`. -/
def XimeApp.DispatchMessageSync (app : XimeApp)
    (message buffer_ptr buffer_length : Nat) : DispatchOutcome :=
  let buffer := app.memory_.TranslateVirtual buffer_ptr
  let pre : List Event := [Event.translate buffer_ptr]
  match message with
  | 0x00400001 =>
      ⟨X_E_SUCCESS, app.memory_,
        pre ++ [Event.log .debug .ximeInit [buffer_ptr, buffer_length]]⟩
  | 0x00400002 =>
      ⟨X_E_SUCCESS, app.memory_,
        pre ++ [Event.log .debug .ximeUninit [buffer_ptr, buffer_length]]⟩
  | 0x00400003 =>
      ⟨X_E_SUCCESS, app.memory_,
        pre ++ [Event.log .debug .ximeSetProperty [buffer_ptr, buffer_length]]⟩
  | 0x00400004 =>
      ⟨X_E_SUCCESS, app.memory_,
        pre ++ [Event.log .debug .ximeSetCharacter [buffer_ptr, buffer_length]]⟩
  | 0x00400005 =>
      ⟨X_E_SUCCESS, app.memory_,
        pre ++ [Event.log .debug .ximeGetString [buffer_ptr, buffer_length]]⟩
  | _ =>
      ⟨X_STATUS_UNSUCCESSFUL, app.memory_,
        pre ++ [Event.log .error .unimplementedXimeMessage
          [app.app_id, message, buffer_ptr, buffer_length]]⟩

/-- The Xime family's opcode table as the spec describes it: a static
mapping from message value to a handler taking the translated buffer
pointer (possibly null) and the length. Every bound handler is the
logging stub returning `X_E_SUCCESS`. -/
def ximeOpcodeTable (message : Nat) : Option (Option Nat → Nat → Nat) :=
  match message with
  | 0x00400001 => some fun _ _ => X_E_SUCCESS
  | 0x00400002 => some fun _ _ => X_E_SUCCESS
  | 0x00400003 => some fun _ _ => X_E_SUCCESS
  | 0x00400004 => some fun _ _ => X_E_SUCCESS
  | 0x00400005 => some fun _ _ => X_E_SUCCESS
  | _ => none

/-- The gate algorithm as the spec words it: look up `message` in the
opcode table; if found, invoke the bound handler on the translated
pointer and the length; otherwise return `GenericUnsuccessful`. -/
def dispatchViaTable (app : XimeApp) (message buffer_ptr buffer_length : Nat) : Nat :=
  match ximeOpcodeTable message with
  | some h => h (app.memory_.TranslateVirtual buffer_ptr) buffer_length
  | none => X_STATUS_UNSUCCESSFUL

/-- The error-severity entries of a trace, in order. -/
def errorLogs (trace : List Event) : List Event :=
  trace.filter fun e =>
    match e with
    | .log .error _ _ => true
    | _ => false

/-- Whether an event is an address translation. -/
def Event.isTranslate : Event → Bool
  | .translate _ => true
  | _ => false

/-- Whether an event is one the gate path is allowed to perform:
address translation or diagnostic logging. -/
def Event.isGateEffect : Event → Bool
  | .translate _ => true
  | .log _ _ _ => true
  | _ => false

/-- Whether an event reads or writes guest memory or dereferences a host
pointer. -/
def Event.touchesMemory : Event → Bool
  | .readGuest _ => true
  | .writeGuest _ _ => true
  | .derefHost _ => true
  | _ => false

/-- An empty guest memory map, used to instantiate witnesses. -/
def mmEmpty : MemoryMap := ⟨fun _ => none⟩

/-- The result code of a dispatch as a function of the message alone,
used to factor proofs: known opcodes yield `X_E_SUCCESS`, anything else
yields `X_STATUS_UNSUCCESSFUL`. -/
def ximeResult (message : Nat) : Nat :=
  match message with
  | 0x00400001 => X_E_SUCCESS
  | 0x00400002 => X_E_SUCCESS
  | 0x00400003 => X_E_SUCCESS
  | 0x00400004 => X_E_SUCCESS
  | 0x00400005 => X_E_SUCCESS
  | _ => X_STATUS_UNSUCCESSFUL

end Xenia

namespace Xenia

theorem dispatch_result_eq (app : XimeApp) (message buffer_ptr buffer_length : Nat) :
    (app.DispatchMessageSync message buffer_ptr buffer_length).result = ximeResult message := by
  unfold XimeApp.DispatchMessageSync ximeResult
  split <;> rfl

theorem dispatch_memory_eq (app : XimeApp) (message buffer_ptr buffer_length : Nat) :
    (app.DispatchMessageSync message buffer_ptr buffer_length).memory = app.memory_ := by
  unfold XimeApp.DispatchMessageSync
  split <;> rfl

theorem ximeOpcodeTable_none_iff (message : Nat) :
    ximeOpcodeTable message = none ↔
      message ≠ 0x00400001 ∧ message ≠ 0x00400002 ∧ message ≠ 0x00400003 ∧
      message ≠ 0x00400004 ∧ message ≠ 0x00400005 := by
  unfold ximeOpcodeTable
  split <;> simp_all

/-- Claim C1: for every message in {0x00400001, ..., 0x00400005} and all
buffer address and length values, `DispatchMessageSync` returns
`X_E_SUCCESS`. -/
theorem dispatch_known_opcode_success (app : XimeApp)
    (message buffer_ptr buffer_length : Nat)
    (h : message = 0x00400001 ∨ message = 0x00400002 ∨ message = 0x00400003 ∨
         message = 0x00400004 ∨ message = 0x00400005) :
    (app.DispatchMessageSync message buffer_ptr buffer_length).result = X_E_SUCCESS := by
  rcases h with h | h | h | h | h <;> subst h <;> rfl

/-- Witness for C1: the documented call `dispatch(serviceId=0xF5,
message=0x00400001, bufferAddr=0, bufferLen=0)` returns `X_E_SUCCESS`. -/
theorem dispatch_known_opcode_success_witness :
    ((XimeApp.make mmEmpty).DispatchMessageSync 0x00400001 0 0).result = X_E_SUCCESS :=
  dispatch_known_opcode_success (XimeApp.make mmEmpty) 0x00400001 0 0 (Or.inl rfl)

/-- Claim C2: for every message not present in the service's opcode table
and all buffer address and length values, `DispatchMessageSync` returns
`X_STATUS_UNSUCCESSFUL` and emits exactly one error-severity log entry
recording the service id, the message and both raw arguments. -/
theorem dispatch_unknown_opcode_unsuccessful (app : XimeApp)
    (message buffer_ptr buffer_length : Nat)
    (h : ximeOpcodeTable message = none) :
    (app.DispatchMessageSync message buffer_ptr buffer_length).result =
        X_STATUS_UNSUCCESSFUL ∧
    errorLogs (app.DispatchMessageSync message buffer_ptr buffer_length).trace =
      [Event.log .error .unimplementedXimeMessage
        [app.app_id, message, buffer_ptr, buffer_length]] := by
  rw [ximeOpcodeTable_none_iff] at h
  obtain ⟨h1, h2, h3, h4, h5⟩ := h
  unfold XimeApp.DispatchMessageSync
  split <;> simp_all [errorLogs, List.filter]

/-- Witness for C2: the unrecognized message 0x00400099 with both
arguments zero yields `X_STATUS_UNSUCCESSFUL` and exactly one error log
naming service id 0xF5 and 0x00400099. -/
theorem dispatch_unknown_opcode_unsuccessful_witness :
    ((XimeApp.make mmEmpty).DispatchMessageSync 0x00400099 0 0).result =
        X_STATUS_UNSUCCESSFUL ∧
    errorLogs ((XimeApp.make mmEmpty).DispatchMessageSync 0x00400099 0 0).trace =
      [Event.log .error .unimplementedXimeMessage [0xF5, 0x00400099, 0, 0]] :=
  dispatch_unknown_opcode_unsuccessful (XimeApp.make mmEmpty) 0x00400099 0 0 rfl

/-- Claim C3: every execution of `DispatchMessageSync` yields exactly one
result code — for all arguments the result is a defined value, one of
`X_E_SUCCESS` or `X_STATUS_UNSUCCESSFUL`; no control path leaves it unset. -/
theorem dispatch_total_result (app : XimeApp)
    (message buffer_ptr buffer_length : Nat) :
    (app.DispatchMessageSync message buffer_ptr buffer_length).result = X_E_SUCCESS ∨
    (app.DispatchMessageSync message buffer_ptr buffer_length).result =
        X_STATUS_UNSUCCESSFUL := by
  rw [dispatch_result_eq]
  unfold ximeResult
  split <;> simp

/-- Claim C4: address translation of the buffer address is performed
exactly once per call, as the first effect, before any handler logic; and
the returned result agrees with looking the message up in the opcode
table and invoking the bound handler on the translated pointer and the
length, so handlers see only the translated pointer, never the raw guest
address. -/
theorem dispatch_translates_once_first (app : XimeApp)
    (message buffer_ptr buffer_length : Nat) :
    (app.DispatchMessageSync message buffer_ptr buffer_length).trace.filter
        Event.isTranslate = [Event.translate buffer_ptr] ∧
    (app.DispatchMessageSync message buffer_ptr buffer_length).trace.head? =
        some (Event.translate buffer_ptr) ∧
    (app.DispatchMessageSync message buffer_ptr buffer_length).result =
        dispatchViaTable app message buffer_ptr buffer_length := by
  unfold XimeApp.DispatchMessageSync dispatchViaTable ximeOpcodeTable
  split <;> simp [Event.isTranslate, List.filter]

/-- Claim C5: the address translator applied to address 0 yields null
without consulting the guest memory map (any two maps agree), and a
handler that does not require a buffer still completes with its normal
success code when called with buffer address 0. -/
theorem translate_zero_null_no_buffer_success :
    (∀ m1 m2 : MemoryMap, m1.TranslateVirtual 0 = none ∧
        m1.TranslateVirtual 0 = m2.TranslateVirtual 0) ∧
    (∀ (app : XimeApp) (message buffer_length : Nat),
        (ximeOpcodeTable message).isSome = true →
        (app.DispatchMessageSync message 0 buffer_length).result = X_E_SUCCESS) := by
  constructor
  · intro m1 m2
    simp [MemoryMap.TranslateVirtual]
  · intro app message buffer_length h
    rw [dispatch_result_eq]
    unfold ximeOpcodeTable at h
    unfold ximeResult
    split <;> simp_all

/-- Witness for C5: the empty map translates address 0 to null, and the
Uninit opcode called with buffer address 0 still returns `X_E_SUCCESS`. -/
theorem translate_zero_null_no_buffer_success_witness :
    mmEmpty.TranslateVirtual 0 = none ∧
    ((XimeApp.make mmEmpty).DispatchMessageSync 0x00400002 0 7).result = X_E_SUCCESS :=
  ⟨(translate_zero_null_no_buffer_success.1 mmEmpty mmEmpty).1,
   translate_zero_null_no_buffer_success.2 (XimeApp.make mmEmpty) 0x00400002 7 rfl⟩

/-- Claim C6: `isFailure` is a pure function of the result code's severity
bits, with `isFailure X_E_SUCCESS = false` and
`isFailure X_STATUS_UNSUCCESSFUL = true`. -/
theorem isFailure_severity_sentinels :
    isFailure X_E_SUCCESS = false ∧ isFailure X_STATUS_UNSUCCESSFUL = true ∧
    ∀ c1 c2 : Nat, severityBits c1 = severityBits c2 → isFailure c1 = isFailure c2 := by
  refine ⟨by decide, by decide, ?_⟩
  intro c1 c2 h
  unfold isFailure
  rw [h]

/-- Witness for C6: the severity congruence applied at the two sentinel
codes themselves. -/
theorem isFailure_severity_sentinels_witness :
    isFailure X_E_SUCCESS = isFailure X_E_SUCCESS ∧
    isFailure X_STATUS_UNSUCCESSFUL = isFailure X_STATUS_UNSUCCESSFUL :=
  ⟨isFailure_severity_sentinels.2.2 X_E_SUCCESS X_E_SUCCESS rfl,
   isFailure_severity_sentinels.2.2 X_STATUS_UNSUCCESSFUL X_STATUS_UNSUCCESSFUL rfl⟩

/-- Claim C7: dispatch is idempotent and deterministic — a second call
with identical arguments, issued against the state left by the first,
returns the same result code as the first. -/
theorem dispatch_idempotent (app : XimeApp)
    (message buffer_ptr buffer_length : Nat) :
    ((XimeApp.mk (app.DispatchMessageSync message buffer_ptr buffer_length).memory
        app.app_id).DispatchMessageSync message buffer_ptr buffer_length).result =
      (app.DispatchMessageSync message buffer_ptr buffer_length).result := by
  rw [dispatch_memory_eq, dispatch_result_eq]

/-- Claim C8: the gate performs no guest-memory mutation of its own — the
memory after a dispatch equals the memory before it — and every effect on
the gate path is either the one address translation or diagnostic
logging. -/
theorem dispatch_frame (app : XimeApp)
    (message buffer_ptr buffer_length : Nat) :
    (app.DispatchMessageSync message buffer_ptr buffer_length).memory = app.memory_ ∧
    (app.DispatchMessageSync message buffer_ptr buffer_length).trace.all
        Event.isGateEffect = true := by
  refine ⟨dispatch_memory_eq app message buffer_ptr buffer_length, ?_⟩
  unfold XimeApp.DispatchMessageSync
  split <;> rfl

/-- Claim C9: the result code depends only on the message — any two calls
with the same message but arbitrary (and possibly different) buffer
addresses, lengths, and service state return identical result codes. -/
theorem dispatch_result_message_only (app1 app2 : XimeApp)
    (message a1 l1 a2 l2 : Nat) :
    (app1.DispatchMessageSync message a1 l1).result =
      (app2.DispatchMessageSync message a2 l2).result := by
  rw [dispatch_result_eq, dispatch_result_eq]

/-- Claim C10: the translated pointer is computed on every path (the
translation event is in the trace) but never used — no path reads or
writes guest memory or dereferences the host pointer. -/
theorem dispatch_never_derefs (app : XimeApp)
    (message buffer_ptr buffer_length : Nat) :
    Event.translate buffer_ptr ∈
        (app.DispatchMessageSync message buffer_ptr buffer_length).trace ∧
    (app.DispatchMessageSync message buffer_ptr buffer_length).trace.all
        (fun e => !e.touchesMemory) = true := by
  constructor
  · unfold XimeApp.DispatchMessageSync
    split <;> simp
  · unfold XimeApp.DispatchMessageSync
    split <;> rfl

end Xenia
